import Mathlib

/-!
Shallow embedding of src/native/native.c (the Socket.lean native binding).

Each native foreign function is modelled as a pure Lean function. Results of the
system calls the C code makes (send, recv, poll, getaddrinfo, fcntl, ...) are
passed in as explicit parameters, so that every control-flow branch of the C body
becomes a branch of the Lean definition. Machine integers are modelled as Nat or
Int; the numeric constants (AF_*, EAGAIN, O_NONBLOCK, struct sizes) are the
values of the glibc/Linux headers under which the POSIX branch of the file is
compiled.
-/

-- ## Platform constants (glibc/Linux values)

/-- Address family constant AF_UNSPEC. -/
def AF_UNSPEC : Nat := 0

/-- Address family constant AF_INET. -/
def AF_INET : Nat := 2

/-- Address family constant AF_INET6. -/
def AF_INET6 : Nat := 10

/-- errno value EAGAIN. -/
def EAGAIN : Int := 11

/-- errno value EWOULDBLOCK (same value as EAGAIN on Linux). -/
def EWOULDBLOCK : Int := 11

/-- File status flag O_NONBLOCK (0o4000). -/
def O_NONBLOCK : Nat := 2048

-- ## Error model

/-- Errors produced by the binding. The three constructors record the three
distinct error-production sites of the C file: get_socket_error formats the
current errno via strerror, the getaddrinfo failure path formats the status via
gai_strerror (a different error-code domain), and the Windows branch of
lean_socket_getblocking returns a bare message string. -/
inductive SockError where
  | osError (errnum : Int)
  | resolutionError (status : Int)
  | unsupported (msg : String)
deriving DecidableEq

/-- Mirror of the lean_io_result success/failure convention used by every
fallible operation of the binding. -/
inductive IOResult (α : Type) where
  | ok (a : α)
  | error (e : SockError)
deriving DecidableEq

-- ## Address model

/-- Model of struct sockaddr_storage as the C file accesses it: the family tag
ss_family, plus the fields read through the sockaddr_in overlay (sin_addr,
sin_port) and through the sockaddr_in6 overlay (sin6_addr as its 16 raw bytes,
sin6_port). The binding only ever inspects the storage through these views. -/
structure SockAddrStorage where
  ss_family : Nat
  sin_addr : Nat
  sin_port : Nat
  sin6_addr : List Nat
  sin6_port : Nat
deriving DecidableEq

/-- Model of the sockaddr_len external class: a sockaddr_storage together with
its declared byte length. -/
structure sockaddr_len where
  address_len : Nat
  address : SockAddrStorage
deriving DecidableEq

/-- Shallow embedding of lean_sockaddr_beq: families must match, then within
AF_INET the s_addr and port fields are compared, within AF_INET6 the port and
the full 16-byte address are compared, and every other family (including
AF_UNSPEC) falls through the switch default to false. -/
def lean_sockaddr_beq (a1 a2 : sockaddr_len) : Bool :=
  if a1.address.ss_family != a2.address.ss_family then false
  else if a1.address.ss_family == AF_INET then
    a1.address.sin_addr == a2.address.sin_addr &&
      a1.address.sin_port == a2.address.sin_port
  else if a1.address.ss_family == AF_INET6 then
    a1.address.sin6_port == a2.address.sin6_port &&
      a1.address.sin6_addr == a2.address.sin6_addr
  else false

/-- The boxed AddressFamily enumeration of the Lean-side API (tags 0, 1, 2). -/
inductive AddressFamily where
  | unspecified
  | inet
  | inet6
deriving DecidableEq

/-- Shallow embedding of lean_sockaddr_family: a switch on the stored ss_family
tag returning some unspecified / some inet / some inet6 for AF_UNSPEC / AF_INET /
AF_INET6 and none for every other tag. -/
def lean_sockaddr_family (a : sockaddr_len) : Option AddressFamily :=
  if a.address.ss_family == AF_UNSPEC then some AddressFamily.unspecified
  else if a.address.ss_family == AF_INET then some AddressFamily.inet
  else if a.address.ss_family == AF_INET6 then some AddressFamily.inet6
  else none

-- ## Concrete addresses used in counterexamples and witnesses

/-- An all-zero storage: family AF_UNSPEC, zero address and port fields. -/
def zeroStorage : SockAddrStorage :=
  { ss_family := AF_UNSPEC, sin_addr := 0, sin_port := 0,
    sin6_addr := List.replicate 16 0, sin6_port := 0 }

/-- A resolved address whose stored family tag is AF_UNSPEC. -/
def unspecAddr : sockaddr_len := { address_len := 16, address := zeroStorage }

/-- A resolved address whose stored family tag is 1 (AF_UNIX on Linux), which is
none of AF_UNSPEC, AF_INET, AF_INET6. -/
def unixAddr : sockaddr_len :=
  { address_len := 110, address := { zeroStorage with ss_family := 1 } }

/-- A resolved IPv4 address (127.0.0.1, port 80). -/
def inetAddr : sockaddr_len :=
  { address_len := 16,
    address := { ss_family := AF_INET, sin_addr := 2130706433, sin_port := 80,
                 sin6_addr := List.replicate 16 0, sin6_port := 0 } }

-- ## Helper lemmas about lean_sockaddr_beq

/-- Characterization of lean_sockaddr_beq as a proposition. -/
lemma lean_sockaddr_beq_true_iff (a b : sockaddr_len) :
    lean_sockaddr_beq a b = true ↔
      (a.address.ss_family = AF_INET ∧ b.address.ss_family = AF_INET ∧
        a.address.sin_addr = b.address.sin_addr ∧
        a.address.sin_port = b.address.sin_port) ∨
      (a.address.ss_family = AF_INET6 ∧ b.address.ss_family = AF_INET6 ∧
        a.address.sin6_port = b.address.sin6_port ∧
        a.address.sin6_addr = b.address.sin6_addr) := by
  unfold lean_sockaddr_beq
  split_ifs with h1 h2 h3
  · rw [bne_iff_ne] at h1
    constructor
    · intro h
      exact h.elim
    · rintro (⟨ha, hb, _, _⟩ | ⟨ha, hb, _, _⟩) <;>
        exact absurd (ha.trans hb.symm) h1
  · rw [bne_iff_ne, not_not] at h1
    rw [beq_iff_eq] at h2
    rw [Bool.and_eq_true, beq_iff_eq, beq_iff_eq]
    constructor
    · rintro ⟨hx, hy⟩
      exact Or.inl ⟨h2, h1.symm.trans h2, hx, hy⟩
    · rintro (⟨_, _, hx, hy⟩ | ⟨ha, _, _, _⟩)
      · exact ⟨hx, hy⟩
      · exact absurd (h2.symm.trans ha) (by decide)
  · rw [bne_iff_ne, not_not] at h1
    rw [beq_iff_eq] at h2 h3
    rw [Bool.and_eq_true, beq_iff_eq, beq_iff_eq]
    constructor
    · rintro ⟨hx, hy⟩
      exact Or.inr ⟨h3, h1.symm.trans h3, hx, hy⟩
    · rintro (⟨ha, _, _, _⟩ | ⟨_, _, hx, hy⟩)
      · exact absurd ha h2
      · exact ⟨hx, hy⟩
  · rw [beq_iff_eq] at h2 h3
    constructor
    · intro h
      exact h.elim
    · rintro (⟨ha, _, _, _⟩ | ⟨ha, _, _, _⟩)
      · exact absurd ha h2
      · exact absurd ha h3

-- ## C5: equality of resolved addresses

/-- C5 counterexample: the claim asserts reflexivity for every resolved address,
but an address whose stored family is AF_UNSPEC falls through the default branch
of lean_sockaddr_beq and does not compare equal to itself. -/
theorem sockaddr_beq_not_refl_unspec :
    lean_sockaddr_beq unspecAddr unspecAddr = false := by decide

/-- C5 (amended): lean_sockaddr_beq is symmetric for all resolved addresses, and
reflexive for every address whose stored family is AF_INET or AF_INET6. -/
theorem sockaddr_beq_symm_refl (a b : sockaddr_len) :
    lean_sockaddr_beq a b = lean_sockaddr_beq b a ∧
    (a.address.ss_family = AF_INET ∨ a.address.ss_family = AF_INET6 →
      lean_sockaddr_beq a a = true) := by
  constructor
  · rw [Bool.eq_iff_iff, lean_sockaddr_beq_true_iff, lean_sockaddr_beq_true_iff]
    constructor <;>
      rintro (⟨h1, h2, h3, h4⟩ | ⟨h1, h2, h3, h4⟩) <;>
      [exact Or.inl ⟨h2, h1, h3.symm, h4.symm⟩;
       exact Or.inr ⟨h2, h1, h3.symm, h4.symm⟩;
       exact Or.inl ⟨h2, h1, h3.symm, h4.symm⟩;
       exact Or.inr ⟨h2, h1, h3.symm, h4.symm⟩]
  · intro h
    rw [lean_sockaddr_beq_true_iff]
    rcases h with h | h
    · exact Or.inl ⟨h, h, rfl, rfl⟩
    · exact Or.inr ⟨h, h, rfl, rfl⟩

/-- C5 witness: the amended theorem applied at the concrete IPv4 address
127.0.0.1:80 and at the unspecified-family address. -/
theorem sockaddr_beq_symm_refl_witness :
    (inetAddr.address.ss_family = AF_INET ∨
      inetAddr.address.ss_family = AF_INET6) ∧
    lean_sockaddr_beq inetAddr inetAddr = true ∧
    lean_sockaddr_beq inetAddr unspecAddr = lean_sockaddr_beq unspecAddr inetAddr :=
  ⟨by decide, (sockaddr_beq_symm_refl inetAddr inetAddr).2 (by decide),
    (sockaddr_beq_symm_refl inetAddr unspecAddr).1⟩

-- ## C6: family accessor

/-- C6 counterexample: the claim asserts the family accessor always returns a
value (unspecified when the tag is not IPv4/IPv6), but for the stored family
tag 1 (AF_UNIX) the switch default returns none, not some unspecified. -/
theorem sockaddr_family_none_on_unknown :
    lean_sockaddr_family unixAddr = none ∧
    lean_sockaddr_family unixAddr ≠ some AddressFamily.unspecified ∧
    unixAddr.address.ss_family ≠ AF_INET ∧
    unixAddr.address.ss_family ≠ AF_INET6 := by decide

/-- C6 (amended): the family accessor returns an optional value: some
unspecified / inet / inet6 exactly when the stored tag is AF_UNSPEC / AF_INET /
AF_INET6, and none exactly when the tag is none of the three. -/
theorem sockaddr_family_characterization (a : sockaddr_len) :
    (lean_sockaddr_family a = some AddressFamily.unspecified ↔
      a.address.ss_family = AF_UNSPEC) ∧
    (lean_sockaddr_family a = some AddressFamily.inet ↔
      a.address.ss_family = AF_INET) ∧
    (lean_sockaddr_family a = some AddressFamily.inet6 ↔
      a.address.ss_family = AF_INET6) ∧
    (lean_sockaddr_family a = none ↔
      a.address.ss_family ≠ AF_UNSPEC ∧ a.address.ss_family ≠ AF_INET ∧
        a.address.ss_family ≠ AF_INET6) := by
  unfold lean_sockaddr_family
  split_ifs with h1 h2 h3 <;>
    simp_all [beq_iff_eq, AF_UNSPEC, AF_INET, AF_INET6]

-- ## C1: shutdown

/-- The native socket calls a binding body can issue, with their arguments. -/
inductive NativeCall where
  | listenCall (fd : Int) (backlog : Nat)
  | shutdownCall (fd : Int) (how : Nat)
deriving DecidableEq

/-- Shallow embedding of lean_socket_shutdown. The body invokes listen(fd, h)
(not shutdown); listenRet is the return value of that call and errnoAfter the
errno current when the else branch formats its error. The C condition
if (listen(...)) takes the ok branch when the call returns nonzero, i.e. when
the native call failed, and the error branch when it returned 0. The first
component records which native call the body performed. -/
def lean_socket_shutdown (fd : Int) (h : Nat) (listenRet : Int)
    (errnoAfter : Int) : NativeCall × IOResult Unit :=
  (NativeCall.listenCall fd h,
    if listenRet != 0 then IOResult.ok ()
    else IOResult.error (SockError.osError errnoAfter))

/-- C1: the body of lean_socket_shutdown performs a listen call, not a native
shutdown, and inverts the success check: when the native call it makes returns 0
(success) the function reports an OS error, and when that call returns -1
(failure) it reports unit. Evaluated at descriptor 3, direction 1. -/
theorem socket_shutdown_miscalls_listen :
    (lean_socket_shutdown 3 1 0 0).1 = NativeCall.listenCall 3 1 ∧
    (lean_socket_shutdown 3 1 0 0).2 = IOResult.error (SockError.osError 0) ∧
    (lean_socket_shutdown 3 1 (-1) 107).2 = IOResult.ok () := by decide

-- ## C2: close and finalizer

/-- A native cleanup call on a descriptor. -/
inductive CleanupCall where
  | closesocket (fd : Int)
deriving DecidableEq

/-- Native calls performed by the body of lean_socket_close: it unconditionally
issues CLOSESOCKET on the boxed descriptor. The handle is a bare SOCKET pointer,
so there is no consumed mark to set or test. -/
def lean_socket_close_calls (fd : Int) : List CleanupCall :=
  [CleanupCall.closesocket fd]

/-- Native calls performed by socket_finalizer: it unconditionally issues
CLOSESOCKET on the boxed descriptor, then frees the box. -/
def socket_finalizer_calls (fd : Int) : List CleanupCall :=
  [CleanupCall.closesocket fd]

/-- Native cleanup calls issued on one handle by an explicit close followed by
the finalizer running at collection time. -/
def closeThenFinalize (fd : Int) : List CleanupCall :=
  lean_socket_close_calls fd ++ socket_finalizer_calls fd

/-- C2: an explicit close followed by finalization issues the native close on
the same descriptor twice; no consumed mark exists anywhere on the path, so the
claimed at-most-once cleanup guarantee fails. -/
theorem socket_close_then_finalize_double_close (fd : Int) :
    closeThenFinalize fd =
      [CleanupCall.closesocket fd, CleanupCall.closesocket fd] ∧
    (closeThenFinalize fd).count (CleanupCall.closesocket fd) = 2 := by
  constructor
  · rfl
  · simp [closeThenFinalize, lean_socket_close_calls, socket_finalizer_calls,
      List.count_cons]

-- ## C3: would-block suppression in send / sendto / recv / recvfrom

/-- Outcome of the native send or sendto call: the returned byte count when it
is nonnegative, or the errno set when it returns -1. -/
inductive NativeRW where
  | ok (bytes : Nat)
  | err (errnum : Int)
deriving DecidableEq

/-- Shallow embedding of lean_socket_send given the native send outcome. -/
def lean_socket_send (r : NativeRW) : IOResult Nat :=
  match r with
  | NativeRW.ok bytes => IOResult.ok bytes
  | NativeRW.err errnum =>
    if errnum == EAGAIN || errnum == EWOULDBLOCK then IOResult.ok 0
    else IOResult.error (SockError.osError errnum)

/-- Shallow embedding of lean_socket_sendto given the native sendto outcome;
its error handling is identical to the send body. -/
def lean_socket_sendto (r : NativeRW) : IOResult Nat :=
  match r with
  | NativeRW.ok bytes => IOResult.ok bytes
  | NativeRW.err errnum =>
    if errnum == EAGAIN || errnum == EWOULDBLOCK then IOResult.ok 0
    else IOResult.error (SockError.osError errnum)

/-- Outcome of the native recv call: the bytes written into the buffer when it
returns a nonnegative count, or the errno set when it returns -1. -/
inductive RecvResult where
  | ok (data : List Nat)
  | err (errnum : Int)
deriving DecidableEq

/-- Shallow embedding of lean_socket_recv given the native recv outcome. -/
def lean_socket_recv (r : RecvResult) : IOResult (Option (List Nat)) :=
  match r with
  | RecvResult.ok data => IOResult.ok (some data)
  | RecvResult.err errnum =>
    if errnum == EAGAIN || errnum == EWOULDBLOCK then IOResult.ok none
    else IOResult.error (SockError.osError errnum)

-- ## C9 support: kernel-reported address lengths

/-- Byte size of struct sockaddr. -/
def sizeof_sockaddr : Nat := 16

/-- Byte size of struct sockaddr_in. -/
def sizeof_sockaddr_in : Nat := 16

/-- Byte size of struct sockaddr_in6. -/
def sizeof_sockaddr_in6 : Nat := 28

/-- Byte size of struct sockaddr_storage, the capacity reserved in sockaddr_len
for the largest supported family. -/
def sizeof_sockaddr_storage : Nat := 128

/-- Address families the kernel reports for sockets this binding creates (the
binding only requests AF_UNSPEC, AF_INET or AF_INET6 sockets and candidates). -/
inductive KernelFamily where
  | inet
  | inet6
deriving DecidableEq

/-- Per the sockets-API value-result contract, accept, recvfrom, getpeername and
getaddrinfo report as the address length the size of the native sockaddr struct
of the peer address family. -/
def kernelAddrLen : KernelFamily → Nat
  | KernelFamily.inet => sizeof_sockaddr_in
  | KernelFamily.inet6 => sizeof_sockaddr_in6

-- ## recvfrom, accept, peer (used by C3 and C9)

/-- Outcome of the native recvfrom call: on a nonnegative return, the peer
address family and storage written by the kernel together with the received
bytes; on -1, the errno set. -/
inductive RecvFromResult where
  | ok (peerFam : KernelFamily) (peerAddr : SockAddrStorage) (data : List Nat)
  | err (errnum : Int)
deriving DecidableEq

/-- Shallow embedding of lean_socket_recvfrom: on success it boxes the kernel
written sockaddr_len (whose address_len the kernel set to the peer family size)
with the data; a would-block errno yields ok none; other errnos an OS error. -/
def lean_socket_recvfrom (r : RecvFromResult) :
    IOResult (Option (sockaddr_len × List Nat)) :=
  match r with
  | RecvFromResult.ok fam st data =>
    IOResult.ok (some ({ address_len := kernelAddrLen fam, address := st }, data))
  | RecvFromResult.err errnum =>
    if errnum == EAGAIN || errnum == EWOULDBLOCK then IOResult.ok none
    else IOResult.error (SockError.osError errnum)

/-- Outcome of the native accept call: a valid new descriptor plus the peer
address the kernel wrote, or the errno on failure. -/
inductive AcceptResult where
  | ok (newFd : Int) (peerFam : KernelFamily) (peerAddr : SockAddrStorage)
  | err (errnum : Int)
deriving DecidableEq

/-- Shallow embedding of lean_socket_accept: address_len is pre-set to
sizeof(sockaddr) and then overwritten by the kernel with the size of the peer
address family; on success the pair (address, new socket) is returned. -/
def lean_socket_accept (r : AcceptResult) : IOResult (sockaddr_len × Int) :=
  match r with
  | AcceptResult.ok newFd fam st =>
    IOResult.ok ({ address_len := kernelAddrLen fam, address := st }, newFd)
  | AcceptResult.err errnum => IOResult.error (SockError.osError errnum)

/-- Outcome of the native getpeername call. -/
inductive PeerResult where
  | ok (peerFam : KernelFamily) (peerAddr : SockAddrStorage)
  | err (errnum : Int)
deriving DecidableEq

/-- Shallow embedding of lean_socket_peer: on a zero status the kernel written
sockaddr_len is boxed and returned, otherwise an OS error. -/
def lean_socket_peer (r : PeerResult) : IOResult sockaddr_len :=
  match r with
  | PeerResult.ok fam st =>
    IOResult.ok { address_len := kernelAddrLen fam, address := st }
  | PeerResult.err errnum => IOResult.error (SockError.osError errnum)

-- ## C3 theorem

/-- C3: for the four data-transfer operations, a native failure with a
would-block/again errno is not surfaced as an error: send and sendto report 0
bytes, recv and recvfrom report no data; every other native failure errno is
surfaced as an OS error. -/
theorem send_recv_would_block_suppressed (e : Int) :
    ((e = EAGAIN ∨ e = EWOULDBLOCK) →
      lean_socket_send (NativeRW.err e) = IOResult.ok 0 ∧
      lean_socket_sendto (NativeRW.err e) = IOResult.ok 0 ∧
      lean_socket_recv (RecvResult.err e) = IOResult.ok none ∧
      lean_socket_recvfrom (RecvFromResult.err e) = IOResult.ok none) ∧
    (¬(e = EAGAIN ∨ e = EWOULDBLOCK) →
      lean_socket_send (NativeRW.err e) =
        IOResult.error (SockError.osError e) ∧
      lean_socket_sendto (NativeRW.err e) =
        IOResult.error (SockError.osError e) ∧
      lean_socket_recv (RecvResult.err e) =
        IOResult.error (SockError.osError e) ∧
      lean_socket_recvfrom (RecvFromResult.err e) =
        IOResult.error (SockError.osError e)) := by
  constructor
  · intro h
    have hb : (e == EAGAIN || e == EWOULDBLOCK) = true := by
      rcases h with h | h <;> simp [h]
    simp [lean_socket_send, lean_socket_sendto, lean_socket_recv,
      lean_socket_recvfrom, hb]
  · intro h
    rw [not_or] at h
    have hb : (e == EAGAIN || e == EWOULDBLOCK) = false := by
      simp [h.1, h.2]
    simp [lean_socket_send, lean_socket_sendto, lean_socket_recv,
      lean_socket_recvfrom, hb]

/-- C3 witness: the theorem applied at the would-block errno 11 (EAGAIN) and at
the non-would-block errno 104 (ECONNRESET). -/
theorem send_recv_would_block_witness :
    ((11 : Int) = EAGAIN ∨ (11 : Int) = EWOULDBLOCK) ∧
    lean_socket_send (NativeRW.err 11) = IOResult.ok 0 ∧
    lean_socket_recv (RecvResult.err 11) = IOResult.ok none ∧
    ¬((104 : Int) = EAGAIN ∨ (104 : Int) = EWOULDBLOCK) ∧
    lean_socket_send (NativeRW.err 104) =
      IOResult.error (SockError.osError 104) :=
  ⟨by decide,
    ((send_recv_would_block_suppressed 11).1 (by decide)).1,
    ((send_recv_would_block_suppressed 11).1 (by decide)).2.2.1,
    by decide,
    ((send_recv_would_block_suppressed 104).2 (by decide)).1⟩

-- ## C7: address resolution

/-- Shallow embedding of lean_sockaddr_mk. gaiStatus is the return value of the
getaddrinfo call; on the failure path the message is formatted with
gai_strerror(status), the resolver-specific error-domain function, not
strerror(errno). ai_addrlen and ai_addr are the length and storage of the first
candidate the resolver produced (read only when the ok branch is taken). The C
guard treats only a negative status as failure. -/
def lean_sockaddr_mk (gaiStatus : Int) (ai_addrlen : Nat)
    (ai_addr : SockAddrStorage) : IOResult sockaddr_len :=
  if gaiStatus < 0 then IOResult.error (SockError.resolutionError gaiStatus)
  else IOResult.ok { address_len := ai_addrlen, address := ai_addr }

/-- C7: the failure guard of lean_sockaddr_mk only catches a negative
getaddrinfo status. A negative failure status is surfaced as a resolver-domain
error as claimed, but a positive failure status (getaddrinfo reports failure by
any nonzero value; the codes are positive on Windows and on several BSD-derived
platforms) is treated as success and an address is fabricated from the unset
result. Evaluated at statuses 8 and -2. -/
theorem sockaddr_mk_guard_misses_positive_status :
    lean_sockaddr_mk 8 16 zeroStorage =
      IOResult.ok { address_len := 16, address := zeroStorage } ∧
    lean_sockaddr_mk (-2) 16 zeroStorage =
      IOResult.error (SockError.resolutionError (-2)) := by decide

-- ## C8: blocking-mode query

/-- The two build targets of the C file. -/
inductive TargetOS where
  | windows
  | posix
deriving DecidableEq

/-- Shallow embedding of lean_socket_getblocking. On Windows the body returns an
error carrying a bare message string without consulting the descriptor. On
POSIX, fcntlRet is the result of fcntl(fd, F_GETFL, 0), none standing for the
-1 failure return (with errnoAfter the errno then current); on success the
result is whether the O_NONBLOCK bit of the returned flags is clear. -/
def lean_socket_getblocking (os : TargetOS) (fcntlRet : Option Nat)
    (errnoAfter : Int) : IOResult Bool :=
  match os with
  | TargetOS.windows =>
    IOResult.error
      (SockError.unsupported "Cannot check if the socket is blocking on Windows")
  | TargetOS.posix =>
    match fcntlRet with
    | none => IOResult.error (SockError.osError errnoAfter)
    | some flags => IOResult.ok (flags &&& O_NONBLOCK == 0)

/-- C8: on POSIX the query returns true exactly when the O_NONBLOCK flag of the
descriptor status flags is clear, and on Windows the query fails explicitly
with an error instead of returning an answer. -/
theorem getblocking_posix_windows (flags : Nat) (e : Int) (fr : Option Nat) :
    (lean_socket_getblocking TargetOS.posix (some flags) e = IOResult.ok true ↔
      flags &&& O_NONBLOCK = 0) ∧
    (∃ msg, lean_socket_getblocking TargetOS.windows fr e =
      IOResult.error (SockError.unsupported msg)) := by
  constructor
  · simp [lean_socket_getblocking]
  · exact ⟨_, rfl⟩

-- ## C9: declared length never exceeds the storage capacity

/-- C9: every sockaddr_len produced by accept, recvfrom, peer lookup or
resolution carries a declared byte length (the kernel-reported size of the peer
family struct) that never exceeds sizeof(sockaddr_storage), the capacity
reserved for the largest supported family. -/
theorem resolved_addr_len_le_capacity (fam : KernelFamily)
    (st : SockAddrStorage) (fd : Int) (data : List Nat) :
    (∃ sal newFd, lean_socket_accept (AcceptResult.ok fd fam st) =
        IOResult.ok (sal, newFd) ∧ sal.address_len ≤ sizeof_sockaddr_storage) ∧
    (∃ sal bytes, lean_socket_recvfrom (RecvFromResult.ok fam st data) =
        IOResult.ok (some (sal, bytes)) ∧
        sal.address_len ≤ sizeof_sockaddr_storage) ∧
    (∃ sal, lean_socket_peer (PeerResult.ok fam st) = IOResult.ok sal ∧
        sal.address_len ≤ sizeof_sockaddr_storage) ∧
    (∃ sal, lean_sockaddr_mk 0 (kernelAddrLen fam) st = IOResult.ok sal ∧
        sal.address_len ≤ sizeof_sockaddr_storage) := by
  have hle : kernelAddrLen fam ≤ sizeof_sockaddr_storage := by
    cases fam <;> decide
  refine ⟨⟨_, _, rfl, hle⟩, ⟨_, _, rfl, hle⟩, ⟨_, rfl, hle⟩,
    ⟨{ address_len := kernelAddrLen fam, address := st }, ?_, hle⟩⟩
  simp [lean_sockaddr_mk]

-- ## C4 and C10: poll

/-- Model of the Lean-side Poll structure whose four constructor fields the C
body reads: the socket, the requested-event mask, the last-observed-event mask
and the ignore flag. -/
structure PollEntry where
  socket : Int
  events : Nat
  revents : Nat
  ignore : Bool
deriving DecidableEq

/-- The pollfd array the C body builds before the native poll call: the fd
(bitwise-complemented, hence negative, when the ignore flag is set, so the
kernel skips the entry) together with the requested events. -/
def buildPollfds (s : List PollEntry) : List (Int × Nat) :=
  s.map (fun p => ((if p.ignore then -p.socket - 1 else p.socket), p.events))

/-- The in-place result construction of the C body, taken when the input array
is uniquely referenced: walking the entries from index k, each entry whose
ignore flag is unset has its observed mask overwritten with the kernel-written
revents for its index; entries with the flag set are left untouched. -/
def pollInPlace (revs : Nat → Nat) : Nat → List PollEntry → List PollEntry
  | _, [] => []
  | k, p :: rest =>
    (if p.ignore = false then { p with revents := revs k } else p) ::
      pollInPlace revs (k + 1) rest

/-- The fresh-copy result construction of the C body, taken when the input
array is shared: each output entry is rebuilt field by field, with the observed
mask taken from the old entry when the ignore flag is set and from the
kernel-written revents otherwise. -/
def pollCopy (revs : Nat → Nat) : Nat → List PollEntry → List PollEntry
  | _, [] => []
  | k, p :: rest =>
    { socket := p.socket, events := p.events,
      revents := if p.ignore then p.revents else revs k,
      ignore := p.ignore } :: pollCopy revs (k + 1) rest

/-- Shallow embedding of lean_socket_poll. pollRes is the return value of the
native poll call on buildPollfds s (negative on failure, otherwise the ready
count; a timeout yields 0), revs i the revents value the kernel wrote at index
i, and exclusive whether the input array is uniquely referenced. -/
def lean_socket_poll (exclusive : Bool) (pollRes : Int) (errnoAfter : Int)
    (revs : Nat → Nat) (s : List PollEntry) : IOResult (List PollEntry) :=
  if pollRes < 0 then IOResult.error (SockError.osError errnoAfter)
  else if exclusive then IOResult.ok (pollInPlace revs 0 s)
  else IOResult.ok (pollCopy revs 0 s)

/-- The in-place path keeps the length of the batch. -/
lemma pollInPlace_length (revs : Nat → Nat) (k : Nat) (s : List PollEntry) :
    (pollInPlace revs k s).length = s.length := by
  induction s generalizing k with
  | nil => rfl
  | cons p rest ih => simp [pollInPlace, ih]

/-- Entry-wise description of the in-place path, with index offset k. -/
lemma pollInPlace_getElem (revs : Nat → Nat) (k : Nat) (s : List PollEntry)
    (i : Nat) :
    (pollInPlace revs k s)[i]? =
      (s[i]?).map (fun p =>
        { p with revents := if p.ignore then p.revents else revs (k + i) }) := by
  induction s generalizing k i with
  | nil => simp [pollInPlace]
  | cons p rest ih =>
    cases i with
    | zero =>
      obtain ⟨sock, ev, rev, ign⟩ := p
      cases ign <;> simp [pollInPlace]
    | succ n =>
      simp only [pollInPlace, List.getElem?_cons_succ]
      rw [ih]
      have hkn : k + 1 + n = k + (n + 1) := by omega
      rw [hkn]

/-- The two result-construction paths of the C body build the same list. -/
lemma pollInPlace_eq_pollCopy (revs : Nat → Nat) (k : Nat)
    (s : List PollEntry) :
    pollInPlace revs k s = pollCopy revs k s := by
  induction s generalizing k with
  | nil => rfl
  | cons p rest ih =>
    obtain ⟨sock, ev, rev, ign⟩ := p
    cases ign <;> simp [pollInPlace, pollCopy, ih]

/-- C4: when the native readiness call does not fail (its result is
nonnegative, including the zero-ready timeout case), poll returns a batch of
the same length and order in which every entry with ignore flag unset carries
the kernel-written observed mask for its index, every entry with the flag set
keeps its previous observed mask, and the socket, requested-mask and ignore
fields are unchanged. -/
theorem poll_preserves_shape (exclusive : Bool) (pollRes errnoAfter : Int)
    (revs : Nat → Nat) (s : List PollEntry) (h : 0 ≤ pollRes) :
    ∃ out, lean_socket_poll exclusive pollRes errnoAfter revs s =
        IOResult.ok out ∧
      out.length = s.length ∧
      ∀ i : Nat, out[i]? = (s[i]?).map (fun p =>
        { p with revents := if p.ignore then p.revents else revs i }) := by
  have hneg : ¬ pollRes < 0 := not_lt.mpr h
  refine ⟨pollInPlace revs 0 s, ?_, pollInPlace_length revs 0 s, ?_⟩
  · cases exclusive <;>
      simp [lean_socket_poll, hneg, pollInPlace_eq_pollCopy]
  · intro i
    rw [pollInPlace_getElem]
    simp

/-- A concrete two-entry batch: one entry with the ignore flag set, one with it
unset. -/
def pollWitnessInput : List PollEntry :=
  [{ socket := 3, events := 1, revents := 7, ignore := true },
   { socket := 4, events := 1, revents := 7, ignore := false }]

/-- C4 witness: the theorem applied to the concrete two-entry batch with a
zero-ready (timeout) native result. -/
theorem poll_preserves_shape_witness :
    (0 : Int) ≤ 0 ∧
    ∃ out, lean_socket_poll true 0 0 (fun _ => 1) pollWitnessInput =
        IOResult.ok out ∧
      out.length = pollWitnessInput.length ∧
      ∀ i : Nat, out[i]? = (pollWitnessInput[i]?).map (fun p =>
        { p with revents := if p.ignore then p.revents else (fun _ => 1) i }) :=
  ⟨by decide,
    poll_preserves_shape true 0 0 (fun _ => 1) pollWitnessInput (by decide)⟩

/-- C10: the in-place path (uniquely referenced input) and the fresh-copy path
(shared input) of lean_socket_poll produce observably identical results for
every batch, native poll result and kernel-written event masks. -/
theorem poll_exclusive_agrees_shared (pollRes errnoAfter : Int)
    (revs : Nat → Nat) (s : List PollEntry) :
    lean_socket_poll true pollRes errnoAfter revs s =
      lean_socket_poll false pollRes errnoAfter revs s := by
  by_cases h : pollRes < 0
  · simp [lean_socket_poll, h]
  · simp [lean_socket_poll, h, pollInPlace_eq_pollCopy]
